import Mathlib

/-!
Shallow embedding of the balcony-configurator edge calculation engine
(`src/engine/geometry/offsetChain.ts` and the constants module), over exact
rational arithmetic.  The JavaScript transcendental functions (`Math.tan`,
`Math.sqrt`, `Math.acos`) are abstracted as an explicit `MathOps` record of
rational-valued functions, so every definition stays computable; no claim
settled here depends on the numeric values of those functions.
-/

namespace OffsetChain

/-- JavaScript `Math.round`: round half toward positive infinity. -/
def jround (x : ℚ) : ℤ := ⌊x + 1 / 2⌋

/-- JavaScript `Math.round` returned as a rational. -/
def jroundQ (x : ℚ) : ℚ := (jround x : ℚ)

/-- The `Math.round(x * 10) / 10` idiom used for one-decimal presentation. -/
def round10 (x : ℚ) : ℚ := (jround (x * 10) : ℚ) / 10

/-- Abstraction of the JavaScript transcendental functions.  `tanDeg θ`
stands for `Math.tan(θ · π / 180)`, `acosDeg c` for
`Math.acos(c) · 180 / π`, and `sqrt` for `Math.sqrt`. -/
structure MathOps where
  tanDeg : ℚ → ℚ
  acosDeg : ℚ → ℚ
  sqrt : ℚ → ℚ

/-- A concrete all-zero instantiation of `MathOps`, used to state closed
theorems about inputs whose control flow never consults the transcendental
functions (all angles zero). -/
def trivialOps : MathOps := ⟨fun _ => 0, fun _ => 0, fun _ => 0⟩

-- ─── Data model (src/types/panel.ts, src/types/geometry.ts) ───

/-- `Point2D` from `src/types/geometry.ts`. -/
structure Point2D where
  x : ℚ
  y : ℚ
deriving DecidableEq, Repr

/-- `OpeningDirection = '>' | '<' | 'X'` (right / left / fixed). -/
inductive OpeningDirection where
  | right
  | left
  | fixedGlass
deriving DecidableEq, Repr

/-- `LockSymbol = '|' | '||' | '-' | ''` (single / double / dash / none). -/
inductive LockSymbol where
  | single
  | double
  | dash
  | empty
deriving DecidableEq, Repr

/-- The non-null constructors of the TS `LockType` union; the TS `null`
member is represented by `Option.none` at use sites. -/
inductive LockTypeName where
  | graderslock90Hane
  | graderslock90Hona
  | variabeltAndlock
  | slutlockHane
  | slutlockHona
  | moteslockHane
  | moteslockHona
  | overlasDubbel
  | overlas
  | undreLasDubbel
  | undreLas
  | dVanster
  | dHoger
  | vridlas
  | dVridlas
deriving DecidableEq, Repr

/-- `Panel` from `src/types/panel.ts`. -/
structure Panel where
  name : String
  length : ℚ
  opening : OpeningDirection
  lock : LockSymbol
  offsetLeft : ℚ
  offsetRight : ℚ
deriving DecidableEq, Repr

/-- Edge classification from `src/types/edge.ts`. -/
inductive WallOrGlazing where
  | wall
  | glazing
deriving DecidableEq, Repr

/-- `EdgeConfig` from `src/types/edge.ts`. -/
structure EdgeConfig where
  wallOrGlazingStatus : WallOrGlazing
  panels : List Panel
deriving DecidableEq, Repr

-- ─── Constants (src/utils/constants.ts) ───

/-- `LOCK_WIDTHS` record: `none` models a key absent from the record
(`undefined`), which the engine defaults to 0 via `?? 0`. -/
def LOCK_WIDTHS : LockTypeName → Option ℚ
  | .graderslock90Hane => some 11.5
  | .graderslock90Hona => some 11.5
  | .variabeltAndlock => some 7.9
  | .slutlockHane => some 25
  | .slutlockHona => some 25
  | .moteslockHane => some 5
  | .moteslockHona => some 5
  | .overlasDubbel => some 30
  | .overlas => some 30
  | .undreLasDubbel => some 5
  | .undreLas => some 5
  | _ => none

def INTERPOLATION_ANGLES : List ℚ :=
  [145, 140, 135, 130, 125, 120, 115, 110, 105, 100, 95, 90]

def WALL_OFFSETS : List ℚ :=
  [83.65, 78.39, 75.21, 73.2, 72.26, 72.17, 72.8, 74.08, 75.94, 78.38, 81.39, 85]

def GLAZING_OFFSETS : List ℚ :=
  [42.6, 28.44, 21.36, 12.58, 4.58, 2.89, -10.02, -16.95, -23.81, -30.71, -37.74, -45]

def MITER_DISTANCE_OVERSKENA : ℚ := 80.5
def MITER_DISTANCE_OVERHALLARE : ℚ := -37.1
def MITER_DISTANCE_COVERPROFILE : ℚ := -88.09
def COVER_PROFILE_WALL_OFFSET : ℚ := 54

def MAX_PANEL_WIDTH : ℚ := 700
def MIN_PANEL_WIDTH : ℚ := 430
def PANEL_STEP : ℚ := 30
def STANDARD_PANEL_SIZES : List ℚ := [430, 460, 490, 520, 550, 580, 610, 640, 670, 700]
def FREE_WIDTH_THRESHOLD : ℚ := 400
def COMBO_TOLERANCE : ℚ := 5
def MIDDLE_PANEL_OFFSET : ℚ := 2
def PASSRUTA_PANEL_OFFSET : ℚ := 6

def DEFAULT_OFFSET_ANGLE_ZERO : ℚ := 46.5
def DEFAULT_OFFSET_WALL_90 : ℚ := 91.5
def POSITIVE_ANGLE_FACTOR : ℚ := 67.89
def NEGATIVE_ANGLE_FACTOR : ℚ := 57.11
def OFFSET_ADDEND : ℚ := 5

-- ─── Math utilities (src/utils/math.ts, whose content appears in the
-- src/store/useConfigStore.ts file after its module separator) ───

/-- `interpolateFromTable(angle, angles, values)` from the math utility
module: clamp at the first/last table entry, then scan for the bracketing
pair of the descending angle table and interpolate linearly; the first
matching pair wins, like the early return of the source loop.  The source
indexes the arrays unchecked (its call sites pass the fixed 12-entry
tables); out-of-range reads are totalized with a 0 default. -/
def interpolateFromTable (angle : ℚ) (angles values : List ℚ) : ℚ :=
  if angles[0]?.getD 0 ≤ angle then values[0]?.getD 0
  else if angle ≤ (angles[angles.length - 1]?.getD 0) then
    values[values.length - 1]?.getD 0
  else
    match (List.range (angles.length - 1)).findSome? (fun i =>
      if angle ≤ angles[i]?.getD 0 ∧ angles[i + 1]?.getD 0 ≤ angle then
        let ratio := (angle - angles[i]?.getD 0) /
          (angles[i + 1]?.getD 0 - angles[i]?.getD 0)
        some (values[i]?.getD 0 + ratio * (values[i + 1]?.getD 0 - values[i]?.getD 0))
      else none) with
    | some v => v
    | none => values[values.length - 1]?.getD 0

/-- `distance2D(x1, y1, x2, y2)` from the math utility module:
`Math.sqrt((x2 - x1) ** 2 + (y2 - y1) ** 2)` over the abstracted root. -/
def distance2D (ops : MathOps) (x1 y1 x2 y2 : ℚ) : ℚ :=
  ops.sqrt ((x2 - x1) ^ 2 + (y2 - y1) ^ 2)

-- ─── Edge offset model (calculateOffset) ───

/-- `OffsetResult` from `offsetChain.ts`. -/
structure OffsetResult where
  offset : ℚ
  profileOffset : ℚ
deriving DecidableEq, Repr

/-- `calculateOffset(angle, isConnectedToWall)` from `offsetChain.ts`
lines 236-274. -/
def calculateOffset (ops : MathOps) (angle : ℚ) (isConnectedToWall : Bool) :
    OffsetResult :=
  if angle = 0 then
    { offset := DEFAULT_OFFSET_ANGLE_ZERO, profileOffset := 0 }
  else if isConnectedToWall ∧ 88 ≤ |angle| ∧ |angle| ≤ 99 then
    { offset := DEFAULT_OFFSET_WALL_90, profileOffset := -45 }
  else if isConnectedToWall ∧ 99 < |angle| ∧ |angle| ≤ 157 then
    let absAngle := |angle|
    let _wallOffset := interpolateFromTable absAngle INTERPOLATION_ANGLES WALL_OFFSETS
    let glazingOffset := interpolateFromTable absAngle INTERPOLATION_ANGLES GLAZING_OFFSETS
    { offset := 50.5 + 10 - glazingOffset - 4, profileOffset := -10 + glazingOffset - 4 }
  else if 0 < angle then
    let halfAngle := (180 - angle) / 2
    { offset := ops.tanDeg halfAngle * POSITIVE_ANGLE_FACTOR + OFFSET_ADDEND, profileOffset := 0 }
  else
    let halfAngle := (180 - angle) / 2
    { offset := ops.tanDeg halfAngle * NEGATIVE_ANGLE_FACTOR + OFFSET_ADDEND, profileOffset := 0 }

-- ─── Miter offset and cut lengths ───

/-- `offsetDueToMiter(distance, angleDegrees)` from `offsetChain.ts`
lines 279-284. -/
def offsetDueToMiter (ops : MathOps) (distance angleDegrees : ℚ) : ℚ :=
  if angleDegrees = 0 then 0
  else
    let modifiedAngle := (180 - angleDegrees) / 2
    distance * ops.tanDeg modifiedAngle

/-- `CutLengths` from `offsetChain.ts`. -/
structure CutLengths where
  underskena : ℚ
  overskena : ℚ
  overhallare : ℚ
  coverprofile : ℚ
deriving DecidableEq, Repr

/-- `calculateCutLengths` from `offsetChain.ts` lines 289-319. -/
def calculateCutLengths (ops : MathOps)
    (totalLength profileOffsetLeft profileOffsetRight startAngle endAngle : ℚ) :
    CutLengths :=
  let underskena := totalLength + profileOffsetLeft + profileOffsetRight
  let overskena := underskena +
    offsetDueToMiter ops MITER_DISTANCE_OVERSKENA startAngle +
    offsetDueToMiter ops MITER_DISTANCE_OVERSKENA endAngle
  let overhallare := underskena +
    offsetDueToMiter ops MITER_DISTANCE_OVERHALLARE startAngle +
    offsetDueToMiter ops MITER_DISTANCE_OVERHALLARE endAngle
  let coverProfileOffset :=
    (if startAngle = 0 then COVER_PROFILE_WALL_OFFSET else 0) +
    (if endAngle = 0 then COVER_PROFILE_WALL_OFFSET else 0)
  let coverprofile := underskena +
    offsetDueToMiter ops MITER_DISTANCE_COVERPROFILE startAngle +
    offsetDueToMiter ops MITER_DISTANCE_COVERPROFILE endAngle +
    coverProfileOffset
  { underskena := underskena, overskena := overskena,
    overhallare := overhallare, coverprofile := coverprofile }

/-- Specification-side miter formula, written from the spec text:
"0 if angle == 0; else distance × tan(radians((180 − angle) / 2))". -/
def offsetDueToMiterSpec (ops : MathOps) (distance angle : ℚ) : ℚ :=
  if angle = 0 then 0 else distance * ops.tanDeg ((180 - angle) / 2)

-- ─── Lock auto-assignment (autoAssignLocks) ───

/-- The reset pass at the top of `autoAssignLocks`: every non-double lock
becomes a dash, double locks are preserved. -/
def resetLocks (panels : List Panel) : List Panel :=
  panels.map fun p => if p.lock = .double then p else { p with lock := .dash }

/-- JavaScript `Array.prototype.findIndex`, with `none` for the -1 result. -/
def findFirstIdx (pred : Panel → Bool) : List Panel → Option ℕ
  | [] => none
  | p :: ps => if pred p then some 0 else (findFirstIdx pred ps).map (· + 1)

/-- `findLastIndex` helper from `offsetChain.ts` lines 500-505, with `none`
for the -1 result. -/
def findLastIdx (pred : Panel → Bool) : List Panel → Option ℕ
  | [] => none
  | p :: ps =>
    match findLastIdx pred ps with
    | some i => some (i + 1)
    | none => if pred p then some 0 else none

/-- One conditional lock assignment of `autoAssignLocks`:
`if (panels[i].lock !== double) panels[i].lock = single`. -/
def setSingleLock (panels : List Panel) (i : ℕ) : List Panel :=
  match panels[i]? with
  | some p => if p.lock = .double then panels else panels.set i { p with lock := .single }
  | none => panels

/-- `autoAssignLocks` from `offsetChain.ts` lines 488-498, as a function on
lists (the source mutates its argument in place). -/
def autoAssignLocks (panels : List Panel) : List Panel :=
  let reset := resetLocks panels
  let firstLeft := findFirstIdx (fun p => decide (p.opening = .left)) reset
  let lastRight := findLastIdx (fun p => decide (p.opening = .right)) reset
  let ps1 := match firstLeft with
    | some i => setSingleLock reset i
    | none => reset
  match lastRight with
  | some i => setSingleLock ps1 i
  | none => ps1

-- ─── Panel building and snapping ───

/-- `buildPanels` from `offsetChain.ts` lines 428-464: builds `total`
panels, the first `numSmall` of size `smallSize` and the rest of size
`largeSize`, each clamped below by `MIN_PANEL_WIDTH`, then runs
`autoAssignLocks`.  (`numLarge` is taken but, as in the source, unused.) -/
def buildPanels (total : ℕ) (largeSize smallSize : ℚ) (numLarge numSmall : ℕ)
    (leftOffset rightOffset : ℚ) : List Panel :=
  let _ := numLarge
  let panels := (List.range total).map fun i =>
    let isLarge := numSmall ≤ i
    let panelWidth := if isLarge then largeSize else smallSize
    let oLeft := if i = 0 then round10 leftOffset else MIDDLE_PANEL_OFFSET
    let oRight := if i = total - 1 then round10 rightOffset else MIDDLE_PANEL_OFFSET
    { name := toString (i + 1), length := max MIN_PANEL_WIDTH panelWidth,
      opening := .right, lock := .dash,
      offsetLeft := oLeft, offsetRight := oRight : Panel }
  autoAssignLocks panels

/-- `snapToStandardSize` from `offsetChain.ts` lines 470-480. -/
def snapToStandardSize (width : ℚ) : ℚ :=
  if width < MIN_PANEL_WIDTH then max 100 (jroundQ width)
  else
    let b0 := STANDARD_PANEL_SIZES.headD 0
    (STANDARD_PANEL_SIZES.foldl
      (fun (b : ℚ × ℚ) s => if |width - s| < b.2 then (s, |width - s|) else b)
      (b0, |width - b0|)).1

-- ─── Combinatorial size search (steps 10-11) ───

/-- State of the best-combo scan in `autoGeneratePanelsForEdge`; `none` for
`bestDiff` models the JavaScript initial value `Infinity`. -/
structure ComboBest where
  bestLarge : ℕ
  bestSmall : ℕ
  bestDiff : Option ℚ
  bestValid : Bool
deriving DecidableEq, Repr

/-- One iteration of the `for (nLarge = 0; ...)` scan from
`offsetChain.ts` lines 393-412. -/
def comboStep (numPanels : ℕ) (baseSize smallerSize availableForGlass : ℚ)
    (st : ComboBest) (nLarge : ℕ) : ComboBest :=
  let nSmall := numPanels - nLarge
  let totalGlass := (nLarge : ℚ) * baseSize + (nSmall : ℚ) * smallerSize
  let diff := totalGlass - availableForGlass
  let valid : Bool := decide (-COMBO_TOLERANCE ≤ diff)
  let absDiff := |diff|
  let ltBest : Bool := match st.bestDiff with
    | none => true
    | some b => decide (absDiff < b)
  if valid && (!st.bestValid || ltBest) then
    { bestLarge := nLarge, bestSmall := nSmall, bestDiff := some absDiff, bestValid := true }
  else if !st.bestValid && ltBest then
    { bestLarge := nLarge, bestSmall := nSmall, bestDiff := some absDiff,
      bestValid := st.bestValid }
  else st

/-- The whole best-combo scan, folding `comboStep` over `0..numPanels`. -/
def comboSearch (numPanels : ℕ) (baseSize smallerSize availableForGlass : ℚ) :
    ComboBest :=
  (List.range (numPanels + 1)).foldl
    (comboStep numPanels baseSize smallerSize availableForGlass)
    { bestLarge := numPanels, bestSmall := 0, bestDiff := none, bestValid := false }

-- ─── Panel auto-generation (autoGeneratePanelsForEdge) ───

/-- `autoGeneratePanelsForEdge` from `offsetChain.ts` lines 325-422. -/
def autoGeneratePanelsForEdge (ops : MathOps) (edgeLength startAngle endAngle : ℚ)
    (startConnectedToWall endConnectedToWall : Bool) : List Panel :=
  let leftOffset := (calculateOffset ops startAngle startConnectedToWall).offset
  let rightOffset := (calculateOffset ops endAngle endConnectedToWall).offset
  let availableLength := edgeLength - leftOffset - rightOffset
  if availableLength < 50 then
    [{ name := "1", length := max 100 (jroundQ availableLength),
       opening := .right, lock := .dash,
       offsetLeft := round10 leftOffset, offsetRight := round10 rightOffset }]
  else
    let numPanels : ℤ := max 1 ⌈availableLength / MAX_PANEL_WIDTH⌉
    let betweenPanelOffsets := ((numPanels : ℚ) - 1) * MIDDLE_PANEL_OFFSET * 2
    let availableForGlass := availableLength - betweenPanelOffsets
    let avgLength := availableForGlass / (numPanels : ℚ)
    if numPanels = 1 then
      [{ name := "1", length := snapToStandardSize avgLength,
         opening := .right, lock := .dash,
         offsetLeft := round10 leftOffset, offsetRight := round10 rightOffset }]
    else if avgLength < FREE_WIDTH_THRESHOLD then
      buildPanels numPanels.toNat (jroundQ avgLength) (jroundQ avgLength)
        0 numPanels.toNat leftOffset rightOffset
    else
      let baseSize := (STANDARD_PANEL_SIZES.find? fun s => decide (avgLength ≤ s)).getD
        MAX_PANEL_WIDTH
      let smallerSize := max MIN_PANEL_WIDTH (baseSize - PANEL_STEP)
      let best := comboSearch numPanels.toNat baseSize smallerSize availableForGlass
      if best.bestValid = false then
        let equalSize := jroundQ avgLength
        buildPanels numPanels.toNat equalSize equalSize 0 numPanels.toNat
          leftOffset rightOffset
      else
        buildPanels numPanels.toNat baseSize smallerSize best.bestLarge best.bestSmall
          leftOffset rightOffset

-- ─── Offset chain calculator (calculateOffsetPoints) ───

/-- `lineLineIntersection2D` from `offsetChain.ts` lines 9-23. -/
def lineLineIntersection2D (p1 d1 p2 d2 : Point2D) : Option Point2D :=
  let denom := d1.x * d2.y - d1.y * d2.x
  if |denom| < 1 / 10 ^ 10 then none
  else
    let t := ((p2.x - p1.x) * d2.y - (p2.y - p1.y) * d2.x) / denom
    some { x := p1.x + t * d1.x, y := p1.y + t * d1.y }

/-- `perpendicular(dx, dy)` from `offsetChain.ts` lines 28-32. -/
def perpendicular (ops : MathOps) (dx dy : ℚ) : Point2D :=
  let len := ops.sqrt (dx * dx + dy * dy)
  if len < 1 / 10 ^ 10 then { x := 0, y := 0 }
  else { x := -dy / len, y := dx / len }

/-- The per-segment record built inside `calculateOffsetPoints`. -/
structure OffsetSeg where
  segStart : Point2D
  segEnd : Point2D
  dx : ℚ
  dy : ℚ
deriving DecidableEq, Repr

/-- Placeholder segment used only to totalize list indexing at positions the
source accesses after establishing they are in range. -/
def dummySeg : OffsetSeg := ⟨⟨0, 0⟩, ⟨0, 0⟩, 0, 0⟩

/-- `calculateOffsetPoints` from `offsetChain.ts` lines 44-125. -/
def calculateOffsetPoints (ops : MathOps) (points : List Point2D)
    (offsetDistance startInset endInset : ℚ) : List Point2D :=
  if points.length < 2 then []
  else
    let offsetSegments := (List.range (points.length - 1)).map fun i =>
      let p1 := (points[i]?).getD ⟨0, 0⟩
      let p2 := (points[i + 1]?).getD ⟨0, 0⟩
      let dx := p2.x - p1.x
      let dy := p2.y - p1.y
      let perp := perpendicular ops dx dy
      { segStart := { x := p1.x + perp.x * offsetDistance, y := p1.y + perp.y * offsetDistance },
        segEnd := { x := p2.x + perp.x * offsetDistance, y := p2.y + perp.y * offsetDistance },
        dx := dx, dy := dy : OffsetSeg }
    let firstSeg := (offsetSegments[0]?).getD dummySeg
    let firstLen := distance2D ops firstSeg.segStart.x firstSeg.segStart.y
      firstSeg.segEnd.x firstSeg.segEnd.y
    let firstPt :=
      if 1 / 10 ^ 10 < firstLen then
        let n := ops.sqrt (firstSeg.dx ^ 2 + firstSeg.dy ^ 2)
        { x := firstSeg.segStart.x + firstSeg.dx / n * startInset,
          y := firstSeg.segStart.y + firstSeg.dy / n * startInset : Point2D }
      else firstSeg.segStart
    let middles := (List.range (offsetSegments.length - 1)).map fun i =>
      let seg1 := (offsetSegments[i]?).getD dummySeg
      let seg2 := (offsetSegments[i + 1]?).getD dummySeg
      match lineLineIntersection2D seg1.segStart ⟨seg1.dx, seg1.dy⟩
          seg2.segStart ⟨seg2.dx, seg2.dy⟩ with
      | some inter => inter
      | none => seg1.segEnd
    let lastSeg := (offsetSegments[offsetSegments.length - 1]?).getD dummySeg
    let lastLen := distance2D ops lastSeg.segStart.x lastSeg.segStart.y
      lastSeg.segEnd.x lastSeg.segEnd.y
    let lastPt :=
      if 1 / 10 ^ 10 < lastLen then
        let normLen := ops.sqrt (lastSeg.dx ^ 2 + lastSeg.dy ^ 2)
        { x := lastSeg.segEnd.x - lastSeg.dx / normLen * endInset,
          y := lastSeg.segEnd.y - lastSeg.dy / normLen * endInset : Point2D }
      else lastSeg.segEnd
    firstPt :: middles ++ [lastPt]

/-- `angleBetweenSegments` from `offsetChain.ts` lines 131-149. -/
def angleBetweenSegments (ops : MathOps) (p1 vertex p3 : Point2D) : ℚ :=
  let v1x := p1.x - vertex.x
  let v1y := p1.y - vertex.y
  let v2x := p3.x - vertex.x
  let v2y := p3.y - vertex.y
  let dot := v1x * v2x + v1y * v2y
  let len1 := ops.sqrt (v1x * v1x + v1y * v1y)
  let len2 := ops.sqrt (v2x * v2x + v2y * v2y)
  if len1 < 1 / 10 ^ 10 ∨ len2 < 1 / 10 ^ 10 then 180
  else
    let cosAngle := max (-1) (min 1 (dot / (len1 * len2)))
    ops.acosDeg cosAngle

-- ─── Update offsets on existing panels (recalcPanelOffsets) ───

/-- The side argument of `betweenPanelOffset`. -/
inductive PanelSide where
  | left
  | right
deriving DecidableEq, Repr

/-- `betweenPanelOffset` from `offsetChain.ts` lines 512-527.  The wildcard
arm covers out-of-range neighbor accesses, which the source never performs
(it guards with `index > 0` / `index < length - 1` before indexing). -/
def betweenPanelOffset (panels : List Panel) (index : ℕ) (side : PanelSide) : ℚ :=
  match side with
  | .left =>
    if 0 < index then
      match panels[index - 1]?, panels[index]? with
      | some prev, some curr =>
        if prev.opening = .fixedGlass ∨ curr.opening = .fixedGlass then
          PASSRUTA_PANEL_OFFSET
        else MIDDLE_PANEL_OFFSET
      | _, _ => MIDDLE_PANEL_OFFSET
    else 0
  | .right =>
    if index < panels.length - 1 then
      match panels[index]?, panels[index + 1]? with
      | some curr, some next =>
        if curr.opening = .fixedGlass ∨ next.opening = .fixedGlass then
          PASSRUTA_PANEL_OFFSET
        else MIDDLE_PANEL_OFFSET
      | _, _ => MIDDLE_PANEL_OFFSET
    else 0

/-- `recalcPanelOffsets` from `offsetChain.ts` lines 529-552. -/
def recalcPanelOffsets (ops : MathOps) (panels : List Panel)
    (startAngle endAngle : ℚ) (startConnectedToWall endConnectedToWall : Bool) :
    List Panel :=
  if panels.length = 0 then panels
  else
    let leftResult := calculateOffset ops startAngle startConnectedToWall
    let rightResult := calculateOffset ops endAngle endConnectedToWall
    panels.mapIdx fun i p =>
      { p with
        offsetLeft :=
          if i = 0 then round10 leftResult.offset
          else betweenPanelOffset panels i .left,
        offsetRight :=
          if i = panels.length - 1 then round10 rightResult.offset
          else betweenPanelOffset panels i .right }

-- ─── Lock/fitting assignment (calculatePanelFittings) ───

/-- `PanelFittingResult` from `offsetChain.ts`; the TS corner and lock
fields have the nullable `LockType` union type, rendered as `Option`. -/
structure PanelFittingResult where
  topLeft : Option LockTypeName
  topRight : Option LockTypeName
  bottomLeft : Option LockTypeName
  bottomRight : Option LockTypeName
  topLock : Option LockTypeName
  bottomLock : Option LockTypeName
  glassWidth : ℚ
  offsetLeft : ℚ
  offsetRight : ℚ
deriving DecidableEq, Repr

/-- `determineLockAtEdge` from `offsetChain.ts` lines 557-561. -/
def determineLockAtEdge (angle : ℚ) : LockTypeName :=
  if angle = 0 then .slutlockHona
  else if 86 < |angle| ∧ |angle| < 94 then .graderslock90Hona
  else .variabeltAndlock

/-- `determineLockAtEdgeEnd` from `offsetChain.ts` lines 563-567. -/
def determineLockAtEdgeEnd (angle : ℚ) : LockTypeName :=
  if angle = 0 then .slutlockHane
  else if 86 < |angle| ∧ |angle| < 94 then .graderslock90Hane
  else .variabeltAndlock

/-- The hardware width of a (possibly null) corner lock:
`topLeft ? (LOCK_WIDTHS[topLeft] ?? 0) : 0`. -/
def lockWidthOf (t : Option LockTypeName) : ℚ :=
  match t with
  | some n => (LOCK_WIDTHS n).getD 0
  | none => 0

/-- The body of the `panels.map` callback in `calculatePanelFittings`
(`offsetChain.ts` lines 581-656), for panel `panel` at index `i`. -/
def panelFittingAt (panels : List Panel) (startAngle endAngle : ℚ)
    (leftCount rightCount : ℕ) (i : ℕ) (panel : Panel) : PanelFittingResult :=
  let isFirst := i = 0
  let isLast := i = panels.length - 1
  let topLeft0 : Option LockTypeName :=
    if isFirst then some (determineLockAtEdge startAngle) else some .moteslockHona
  let topRight0 : Option LockTypeName :=
    if isLast then some (determineLockAtEdgeEnd endAngle) else some .moteslockHane
  let leftOverride : Bool :=
    if 0 < i then
      match panels[i - 1]? with
      | some prev =>
        decide (prev.opening = .fixedGlass) ||
          (decide (panel.opening = .fixedGlass) && !decide (prev.opening = .fixedGlass))
      | none => false
    else false
  let rightOverride : Bool :=
    if i < panels.length - 1 then
      match panels[i + 1]? with
      | some next =>
        decide (next.opening = .fixedGlass) ||
          (decide (panel.opening = .fixedGlass) && !decide (next.opening = .fixedGlass))
      | none => false
    else false
  let topLeft := if leftOverride then some LockTypeName.variabeltAndlock else topLeft0
  let topRight := if rightOverride then some LockTypeName.variabeltAndlock else topRight0
  let locks0 : Option LockTypeName × Option LockTypeName :=
    if panel.lock = .double then (some .overlasDubbel, some .vridlas)
    else if panel.lock = .single then (some .overlas, some .vridlas)
    else (none, none)
  let locks :=
    if panel.opening = .left ∧ leftCount = 1 then
      (some LockTypeName.dVanster, some LockTypeName.dVridlas)
    else if panel.opening = .right ∧ rightCount = 1 then
      (some LockTypeName.dHoger, some LockTypeName.dVridlas)
    else locks0
  let glassWidth := panel.length - lockWidthOf topLeft - lockWidthOf topRight
  { topLeft := topLeft, topRight := topRight,
    bottomLeft := topLeft, bottomRight := topRight,
    topLock := locks.1, bottomLock := locks.2,
    glassWidth := round10 glassWidth,
    offsetLeft := panel.offsetLeft, offsetRight := panel.offsetRight }

/-- `calculatePanelFittings` from `offsetChain.ts` lines 569-657.  The
source maps over `panels` with the element index; rendered here as a map
over `List.range` so each callback sees its index. -/
def calculatePanelFittings (panels : List Panel) (startAngle endAngle : ℚ)
    (frameHeight : ℚ) : List PanelFittingResult :=
  let _ := frameHeight
  if panels.length = 0 then []
  else
    let leftCount := (panels.filter fun p => decide (p.opening = .left)).length
    let rightCount := (panels.filter fun p => decide (p.opening = .right)).length
    (List.range panels.length).map fun i =>
      panelFittingAt panels startAngle endAngle leftCount rightCount i
        ((panels[i]?).getD ⟨"", 0, .right, .dash, 0, 0⟩)

-- ─── Wall connection detection and the edge aggregator ───

/-- The side argument of `isConnectedToWall`. -/
inductive EdgeSide where
  | start
  | stop
deriving DecidableEq, Repr

/-- JavaScript array indexing with a possibly negative integer index:
out-of-range (including negative) gives `undefined`, modelled as `none`. -/
def zget (l : List α) (i : ℤ) : Option α :=
  if 0 ≤ i then l[i.toNat]? else none

/-- `isConnectedToWall` from `offsetChain.ts` lines 663-676. -/
def isConnectedToWall (edgeConfigs : List EdgeConfig) (segIndex : ℤ)
    (side : EdgeSide) : Bool :=
  match side with
  | .start =>
    if 0 < segIndex then
      match zget edgeConfigs (segIndex - 1) with
      | some e => decide (e.wallOrGlazingStatus = .wall)
      | none => false
    else false
  | .stop =>
    if segIndex < (edgeConfigs.length : ℤ) - 1 then
      match zget edgeConfigs (segIndex + 1) with
      | some e => decide (e.wallOrGlazingStatus = .wall)
      | none => false
    else false

/-- `ComputedEdgeData` from `offsetChain.ts`. -/
structure ComputedEdgeData where
  sideNumber : ℤ
  edgeLength : ℚ
  startAngle : ℚ
  endAngle : ℚ
  startConnectedToWall : Bool
  endConnectedToWall : Bool
  profileOffsetLeft : ℚ
  profileOffsetRight : ℚ
  totalModuleLength : ℚ
  spelGuide : ℚ
  cutLengths : CutLengths
  panelFittings : List PanelFittingResult
deriving DecidableEq, Repr

/-- `computeEdgeData` from `offsetChain.ts` lines 680-765. -/
def computeEdgeData (ops : MathOps) (guidePoints : List Point2D)
    (edgeConfigs : List EdgeConfig) (segIndex : ℤ) (frameHeight : ℚ) :
    Option ComputedEdgeData :=
  if segIndex < 0 ∨ (guidePoints.length : ℤ) - 1 ≤ segIndex then none
  else
    let i := segIndex.toNat
    let startPt := (guidePoints[i]?).getD ⟨0, 0⟩
    let endPt := (guidePoints[i + 1]?).getD ⟨0, 0⟩
    let dx := endPt.x - startPt.x
    let dy := endPt.y - startPt.y
    let edgeLength := ops.sqrt (dx * dx + dy * dy)
    let sideNumber := segIndex + 1
    let startAngle :=
      if 0 < i then
        angleBetweenSegments ops ((guidePoints[i - 1]?).getD ⟨0, 0⟩)
          ((guidePoints[i]?).getD ⟨0, 0⟩) ((guidePoints[i + 1]?).getD ⟨0, 0⟩)
      else 0
    let endAngle :=
      if i + 2 < guidePoints.length then
        angleBetweenSegments ops ((guidePoints[i]?).getD ⟨0, 0⟩)
          ((guidePoints[i + 1]?).getD ⟨0, 0⟩) ((guidePoints[i + 2]?).getD ⟨0, 0⟩)
      else 0
    let startWall := isConnectedToWall edgeConfigs segIndex .start
    let endWall := isConnectedToWall edgeConfigs segIndex .stop
    let leftResult := calculateOffset ops startAngle startWall
    let rightResult := calculateOffset ops endAngle endWall
    let edge := zget edgeConfigs segIndex
    let panels := (edge.map EdgeConfig.panels).getD []
    let fittings :=
      if (edge.map EdgeConfig.wallOrGlazingStatus) = some WallOrGlazing.wall then []
      else calculatePanelFittings panels startAngle endAngle frameHeight
    let totalModuleLength := panels.foldl
      (fun sum p => sum + p.length + p.offsetLeft + p.offsetRight) 0
    let spelGuide := round10 (edgeLength - totalModuleLength)
    let cut := calculateCutLengths ops edgeLength leftResult.profileOffset
      rightResult.profileOffset startAngle endAngle
    some
      { sideNumber := sideNumber,
        edgeLength := round10 edgeLength,
        startAngle := round10 startAngle,
        endAngle := round10 endAngle,
        startConnectedToWall := startWall,
        endConnectedToWall := endWall,
        profileOffsetLeft := round10 leftResult.profileOffset,
        profileOffsetRight := round10 rightResult.profileOffset,
        totalModuleLength := round10 totalModuleLength,
        spelGuide := spelGuide,
        cutLengths :=
          { underskena := round10 cut.underskena,
            overskena := round10 cut.overskena,
            overhallare := round10 cut.overhallare,
            coverprofile := round10 cut.coverprofile },
        panelFittings := fittings }

-- ═══════════ Claims ═══════════

attribute [local semireducible] Rat.mul Rat.add Rat.sub Rat.inv Rat.ofScientific

/-- C9: `calculateOffset(0, true)` equals `calculateOffset(0, false)`: for angle 0 the
result is the fixed zero-angle offset 46.5 mm with profile offset 0, independent of the
wall-connected flag. -/
theorem claim_C9_offset_angle_zero (ops : MathOps) :
    calculateOffset ops 0 true = calculateOffset ops 0 false ∧
    calculateOffset ops 0 true = { offset := 46.5, profileOffset := 0 } :=
  ⟨rfl, rfl⟩

/-- C3: `calculateCutLengths` returns `underskena = edgeLength + profileOffsetLeft +
profileOffsetRight`; `overskena` and `overhallare` add the miter terms for the rail
constants 80.5 and −37.1; `coverprofile` adds the miter terms for −88.09 plus a 54 mm
bonus for each angle that equals 0; and `offsetDueToMiter` matches the spec formula
(0 at angle 0, else `distance · tan(radians((180 − angle)/2))`). -/
theorem claim_C3_cut_lengths (ops : MathOps) (totalLength pl pr sa ea : ℚ) :
    (∀ d a, offsetDueToMiter ops d a = offsetDueToMiterSpec ops d a) ∧
    calculateCutLengths ops totalLength pl pr sa ea =
      { underskena := totalLength + pl + pr,
        overskena := totalLength + pl + pr +
          offsetDueToMiterSpec ops 80.5 sa + offsetDueToMiterSpec ops 80.5 ea,
        overhallare := totalLength + pl + pr +
          offsetDueToMiterSpec ops (-37.1) sa + offsetDueToMiterSpec ops (-37.1) ea,
        coverprofile := totalLength + pl + pr +
          offsetDueToMiterSpec ops (-88.09) sa + offsetDueToMiterSpec ops (-88.09) ea +
          ((if sa = 0 then 54 else 0) + (if ea = 0 then 54 else 0)) } :=
  ⟨fun _ _ => rfl, rfl⟩

/-- C6: `computeEdgeData` returns null if and only if the segment index is out of range
(negative, or at least `guide.length − 1`); every in-range index yields a record. -/
theorem claim_C6_out_of_range (ops : MathOps) (guide : List Point2D)
    (configs : List EdgeConfig) (segIndex : ℤ) (frameHeight : ℚ) :
    computeEdgeData ops guide configs segIndex frameHeight = none ↔
      segIndex < 0 ∨ (guide.length : ℤ) - 1 ≤ segIndex := by
  unfold computeEdgeData
  split
  next h => simpa using h
  next h => simpa using h

/-- C10: `calculateOffsetPoints` returns exactly one output vertex per input vertex when
given at least 2 points, and the empty list otherwise. -/
theorem claim_C10_point_count (ops : MathOps) (points : List Point2D)
    (offsetDistance startInset endInset : ℚ) :
    (2 ≤ points.length →
      (calculateOffsetPoints ops points offsetDistance startInset endInset).length
        = points.length) ∧
    (points.length < 2 →
      calculateOffsetPoints ops points offsetDistance startInset endInset = []) := by
  constructor
  · intro h
    unfold calculateOffsetPoints
    rw [if_neg (by omega)]
    simp [List.length_map, List.length_range]
    omega
  · intro h
    unfold calculateOffsetPoints
    rw [if_pos h]

/-- C10 witness: at a concrete 3-point polyline the output has 3 points, and a 1-point
input yields the empty list. -/
theorem claim_C10_point_count_witness :
    (calculateOffsetPoints trivialOps [⟨0, 0⟩, ⟨100, 0⟩, ⟨100, 100⟩] (-10) 20 20).length
        = 3 ∧
    calculateOffsetPoints trivialOps [⟨0, 0⟩] (-10) 20 20 = [] :=
  ⟨(claim_C10_point_count trivialOps [⟨0, 0⟩, ⟨100, 0⟩, ⟨100, 100⟩] (-10) 20 20).1
      (by decide),
    (claim_C10_point_count trivialOps [⟨0, 0⟩] (-10) 20 20).2 (by decide)⟩

/-- C1 counterexample: at edgeLength 3000, zero angles and no wall connections the
generator does return 5 panels, but the footprint
`Σ(length + offsetLeft + offsetRight)` is 3009 mm — 9 mm over the 3000 mm edge length —
so the claimed 5 mm bound fails. -/
theorem claim_C1_counterexample :
    ¬ ((autoGeneratePanelsForEdge trivialOps 3000 0 0 false false).length = 5 ∧
      |((autoGeneratePanelsForEdge trivialOps 3000 0 0 false false).map
          (fun p => p.length + p.offsetLeft + p.offsetRight)).sum - 3000| ≤ 5) := by
  decide

/-- C1 amended: at edgeLength 3000, zero angles and no wall connections the generator
returns exactly 5 panels and the footprint sum is exactly 3009 mm, i.e. it differs from
the edge length by 9 mm. -/
theorem claim_C1_five_panels_sum :
    (autoGeneratePanelsForEdge trivialOps 3000 0 0 false false).length = 5 ∧
    ((autoGeneratePanelsForEdge trivialOps 3000 0 0 false false).map
        (fun p => p.length + p.offsetLeft + p.offsetRight)).sum - 3000 = 9 := by
  decide

/-- C2: at edgeLength 800 with zero angles (available 707 ≥ 50, numPanels 2,
avg 351.5 < 400) the free-width branch runs and round(avg) = 352, yet both returned
panels have length 430: `buildPanels` clamps every width to `MIN_PANEL_WIDTH`,
contradicting the documented free-width behaviour. -/
theorem claim_C2_min_width_clamp :
    jroundQ ((800 - 46.5 - 46.5 - 4) / 2) = 352 ∧
    (autoGeneratePanelsForEdge trivialOps 800 0 0 false false).map Panel.length
      = [430, 430] := by
  decide

/-- C8: `recalcPanelOffsets` keeps the list length and every panel's name, length,
opening and lock; only the two offset fields are rewritten. -/
theorem claim_C8_recalc_preserves (ops : MathOps) (panels : List Panel)
    (startAngle endAngle : ℚ) (sw ew : Bool) (hne : panels ≠ []) :
    (recalcPanelOffsets ops panels startAngle endAngle sw ew).length = panels.length ∧
    ∀ (i : ℕ) (p : Panel), panels[i]? = some p →
      ∃ q : Panel, (recalcPanelOffsets ops panels startAngle endAngle sw ew)[i]? = some q ∧
        q.name = p.name ∧ q.length = p.length ∧ q.opening = p.opening ∧
        q.lock = p.lock := by
  have hlen : ¬ panels.length = 0 := by simpa using hne
  constructor
  · unfold recalcPanelOffsets
    rw [if_neg hlen]
    exact List.length_mapIdx
  · intro i p hp
    obtain ⟨hi, hpi⟩ := List.getElem?_eq_some.mp hp
    unfold recalcPanelOffsets
    rw [if_neg hlen]
    have hi2 : i < (panels.mapIdx fun i p =>
        ({ p with
          offsetLeft :=
            if i = 0 then round10 (calculateOffset ops startAngle sw).offset
            else betweenPanelOffset panels i .left,
          offsetRight :=
            if i = panels.length - 1 then round10 (calculateOffset ops endAngle ew).offset
            else betweenPanelOffset panels i .right } : Panel)).length := by
      rw [List.length_mapIdx]; exact hi
    refine ⟨_, List.getElem?_eq_getElem hi2, ?_⟩
    have := List.get_mapIdx panels (fun i p =>
        ({ p with
          offsetLeft :=
            if i = 0 then round10 (calculateOffset ops startAngle sw).offset
            else betweenPanelOffset panels i .left,
          offsetRight :=
            if i = panels.length - 1 then round10 (calculateOffset ops endAngle ew).offset
            else betweenPanelOffset panels i .right } : Panel)) i hi
    simp only [List.get_eq_getElem] at this
    rw [this, hpi]
    exact ⟨rfl, rfl, rfl, rfl⟩

/-- C8 witness: on a concrete singleton panel list the recalculation keeps the length
and the four identifying fields of the panel. -/
theorem claim_C8_recalc_preserves_witness :
    (recalcPanelOffsets trivialOps
        [⟨"a", 500, OpeningDirection.right, LockSymbol.dash, 1, 2⟩]
        0 0 false false).length = 1 ∧
    ∃ q : Panel,
      (recalcPanelOffsets trivialOps
          [⟨"a", 500, OpeningDirection.right, LockSymbol.dash, 1, 2⟩]
          0 0 false false)[0]? = some q ∧
      q.name = "a" ∧ q.length = 500 ∧ q.opening = OpeningDirection.right ∧
      q.lock = LockSymbol.dash :=
  ⟨(claim_C8_recalc_preserves trivialOps
      [⟨"a", 500, OpeningDirection.right, LockSymbol.dash, 1, 2⟩]
      0 0 false false (by decide)).1,
    (claim_C8_recalc_preserves trivialOps
      [⟨"a", 500, OpeningDirection.right, LockSymbol.dash, 1, 2⟩]
      0 0 false false (by decide)).2 0
      ⟨"a", 500, OpeningDirection.right, LockSymbol.dash, 1, 2⟩ (by decide)⟩

/-- C5: at every boundary between a fixed panel and a non-fixed panel,
`calculatePanelFittings` assigns the variable end cap to both the top and bottom
corners on both sides of the boundary, for all start and end angles. -/
theorem claim_C5_fixed_boundary (panels : List Panel) (startAngle endAngle fh : ℚ)
    (i : ℕ) (p q : Panel) (hp : panels[i]? = some p) (hq : panels[i + 1]? = some q)
    (hx : Xor' (p.opening = .fixedGlass) (q.opening = .fixedGlass)) :
    ∃ rp rq : PanelFittingResult,
      (calculatePanelFittings panels startAngle endAngle fh)[i]? = some rp ∧
      (calculatePanelFittings panels startAngle endAngle fh)[i + 1]? = some rq ∧
      rp.topRight = some .variabeltAndlock ∧ rp.bottomRight = some .variabeltAndlock ∧
      rq.topLeft = some .variabeltAndlock ∧ rq.bottomLeft = some .variabeltAndlock := by
  obtain ⟨hi, hpi⟩ := List.getElem?_eq_some.mp hp
  obtain ⟨hi1, hqi⟩ := List.getElem?_eq_some.mp hq
  have hne : ¬ panels.length = 0 := by omega
  have hlt : i < panels.length - 1 := by omega
  unfold calculatePanelFittings
  rw [if_neg hne]
  rw [List.getElem?_map, List.getElem?_map, List.getElem?_range hi,
    List.getElem?_range hi1]
  refine ⟨_, _, rfl, rfl, ?_, ?_, ?_, ?_⟩ <;>
    rcases hx with ⟨h1, h2⟩ | ⟨h1, h2⟩ <;>
      simp [panelFittingAt, hp, hq, hlt, h1, h2]


/-- C5 witness: a concrete fixed panel followed by a right-opening panel gets the
variable end cap on all four corners of the shared boundary. -/
theorem claim_C5_fixed_boundary_witness :
    ∃ rp rq : PanelFittingResult,
      (calculatePanelFittings
        [⟨"1", 500, OpeningDirection.fixedGlass, LockSymbol.dash, 0, 0⟩,
         ⟨"2", 500, OpeningDirection.right, LockSymbol.dash, 0, 0⟩] 0 0 2200)[0]?
        = some rp ∧
      (calculatePanelFittings
        [⟨"1", 500, OpeningDirection.fixedGlass, LockSymbol.dash, 0, 0⟩,
         ⟨"2", 500, OpeningDirection.right, LockSymbol.dash, 0, 0⟩] 0 0 2200)[0 + 1]?
        = some rq ∧
      rp.topRight = some .variabeltAndlock ∧ rp.bottomRight = some .variabeltAndlock ∧
      rq.topLeft = some .variabeltAndlock ∧ rq.bottomLeft = some .variabeltAndlock :=
  claim_C5_fixed_boundary
    [⟨"1", 500, OpeningDirection.fixedGlass, LockSymbol.dash, 0, 0⟩,
     ⟨"2", 500, OpeningDirection.right, LockSymbol.dash, 0, 0⟩] 0 0 2200 0
    ⟨"1", 500, OpeningDirection.fixedGlass, LockSymbol.dash, 0, 0⟩
    ⟨"2", 500, OpeningDirection.right, LockSymbol.dash, 0, 0⟩
    (by decide) (by decide) (by decide)

-- ─── Helper lemmas for the lock auto-assignment pass ───

/-- Indexing through the reset pass. -/
theorem getElem?_resetLocks (ps : List Panel) (i : ℕ) :
    (resetLocks ps)[i]? = (ps[i]?).map fun p =>
      if p.lock = .double then p else { p with lock := .dash } := by
  simp [resetLocks]

/-- A single conditional lock assignment leaves every other index unchanged. -/
theorem getElem?_setSingleLock_ne (l : List Panel) {i j : ℕ} (h : i ≠ j) :
    (setSingleLock l i)[j]? = l[j]? := by
  unfold setSingleLock
  split
  next p hp =>
    split
    · rfl
    · exact List.getElem?_set_ne h
  next => rfl

/-- A single conditional lock assignment at an in-range index. -/
theorem getElem?_setSingleLock_self {l : List Panel} {i : ℕ} {p : Panel}
    (hp : l[i]? = some p) :
    (setSingleLock l i)[i]? =
      some (if p.lock = .double then p else { p with lock := .single }) := by
  have hi : i < l.length := (List.getElem?_eq_some.mp hp).1
  unfold setSingleLock
  rw [hp]
  split
  next p2 hd =>
    cases hd
    by_cases hdl : p.lock = .double
    · rw [if_pos hdl, if_pos hdl]
      exact hp
    · rw [if_neg hdl, if_neg hdl]
      exact List.getElem?_set_eq_of_lt _ hi
  next hd => cases hd

/-- A double lock survives any single conditional lock assignment. -/
theorem setSingleLock_keeps_double {l : List Panel} {i j : ℕ} {p : Panel}
    (hp : l[i]? = some p) (hd : p.lock = .double) :
    (setSingleLock l j)[i]? = some p := by
  by_cases hij : j = i
  · subst hij
    rw [getElem?_setSingleLock_self hp, if_pos hd]
  · rw [getElem?_setSingleLock_ne l hij, hp]

/-- Soundness of `findFirstIdx`: a found index satisfies the predicate. -/
theorem findFirstIdx_spec {pred : Panel → Bool} :
    ∀ {l : List Panel} {i : ℕ}, findFirstIdx pred l = some i →
      ∃ p, l[i]? = some p ∧ pred p = true := by
  intro l
  induction l with
  | nil => intro i h; simp [findFirstIdx] at h
  | cons x t ih =>
    intro i h
    unfold findFirstIdx at h
    split at h
    next hx =>
      cases h
      exact ⟨x, List.getElem?_cons_zero, hx⟩
    next hx =>
      rcases Option.map_eq_some'.mp h with ⟨k, hk, rfl⟩
      rcases ih hk with ⟨p, hp, hpred⟩
      exact ⟨p, by simpa using hp, hpred⟩

/-- Completeness of `findFirstIdx`: the first index whose element satisfies the
predicate is found. -/
theorem findFirstIdx_eq_some {pred : Panel → Bool} :
    ∀ {l : List Panel} {i : ℕ} {p : Panel}, l[i]? = some p → pred p = true →
      (∀ (j : ℕ) (q : Panel), j < i → l[j]? = some q → pred q = false) →
      findFirstIdx pred l = some i := by
  intro l
  induction l with
  | nil => intro i p hp _ _; simp at hp
  | cons x t ih =>
    intro i p hp hpred hmin
    match i with
    | 0 =>
      simp only [List.getElem?_cons_zero, Option.some_inj] at hp
      subst hp
      unfold findFirstIdx
      rw [if_pos hpred]
    | k + 1 =>
      have hx : pred x = false := hmin 0 x (Nat.succ_pos k) List.getElem?_cons_zero
      unfold findFirstIdx
      rw [if_neg (by simp [hx])]
      have : findFirstIdx pred t = some k := by
        refine ih (by simpa using hp) hpred ?_
        intro j q hj hq
        exact hmin (j + 1) q (by omega) (by simpa using hq)
      rw [this]
      rfl

/-- Soundness of `findLastIdx`: a found index satisfies the predicate. -/
theorem findLastIdx_spec {pred : Panel → Bool} :
    ∀ {l : List Panel} {i : ℕ}, findLastIdx pred l = some i →
      ∃ p, l[i]? = some p ∧ pred p = true := by
  intro l
  induction l with
  | nil => intro i h; simp [findLastIdx] at h
  | cons x t ih =>
    intro i h
    unfold findLastIdx at h
    split at h
    next k hk =>
      cases h
      rcases ih hk with ⟨p, hp, hpred⟩
      exact ⟨p, by simpa using hp, hpred⟩
    next hk =>
      split at h
      next hx =>
        cases h
        exact ⟨x, List.getElem?_cons_zero, hx⟩
      next hx => cases h

/-- `findLastIdx` misses lists none of whose elements satisfy the predicate. -/
theorem findLastIdx_eq_none {pred : Panel → Bool} :
    ∀ {l : List Panel}, (∀ (j : ℕ) (q : Panel), l[j]? = some q → pred q = false) →
      findLastIdx pred l = none := by
  intro l
  induction l with
  | nil => intro _; rfl
  | cons x t ih =>
    intro hall
    unfold findLastIdx
    have ht : findLastIdx pred t = none := by
      refine ih ?_
      intro j q hq
      exact hall (j + 1) q (by simpa using hq)
    rw [ht]
    simp [hall 0 x List.getElem?_cons_zero]

/-- Completeness of `findLastIdx`: the last index whose element satisfies the
predicate is found. -/
theorem findLastIdx_eq_some {pred : Panel → Bool} :
    ∀ {l : List Panel} {i : ℕ} {p : Panel}, l[i]? = some p → pred p = true →
      (∀ (j : ℕ) (q : Panel), i < j → l[j]? = some q → pred q = false) →
      findLastIdx pred l = some i := by
  intro l
  induction l with
  | nil => intro i p hp _ _; simp at hp
  | cons x t ih =>
    intro i p hp hpred hmax
    match i with
    | 0 =>
      have ht : findLastIdx pred t = none := by
        refine findLastIdx_eq_none ?_
        intro j q hq
        exact hmax (j + 1) q (Nat.succ_pos j) (by simpa using hq)
      simp only [List.getElem?_cons_zero, Option.some_inj] at hp
      subst hp
      unfold findLastIdx
      rw [ht, if_pos hpred]
    | k + 1 =>
      have ht : findLastIdx pred t = some k := by
        refine ih (by simpa using hp) hpred ?_
        intro j q hj hq
        exact hmax (j + 1) q (by omega) (by simpa using hq)
      unfold findLastIdx
      rw [ht]

/-- Double locks survive the whole auto-assignment pass. -/
theorem autoAssignLocks_keeps_double {ps : List Panel} {i : ℕ} {p : Panel}
    (hp : ps[i]? = some p) (hd : p.lock = .double) :
    ((autoAssignLocks ps)[i]?).map Panel.lock = some .double := by
  have hr : (resetLocks ps)[i]? = some p := by
    rw [getElem?_resetLocks, hp]
    simp [hd]
  unfold autoAssignLocks
  rcases hfl :
    (findFirstIdx (fun p => decide (p.opening = .left)) (resetLocks ps)) with _ | k
  all_goals rcases hll :
    (findLastIdx (fun p => decide (p.opening = .right)) (resetLocks ps)) with _ | m
  · simp [hfl, hll, hr, hd]
  · simp only [hfl, hll]
    rw [setSingleLock_keeps_double hr hd]
    simp [hd]
  · simp only [hfl, hll]
    rw [setSingleLock_keeps_double hr hd]
    simp [hd]
  · simp only [hfl, hll]
    rw [setSingleLock_keeps_double (setSingleLock_keeps_double hr hd) hd]
    simp [hd]


/-- The first left-opening panel, when not double-locked, ends the pass with a
single lock. -/
theorem autoAssignLocks_first_left_single {ps : List Panel} {i : ℕ} {p : Panel}
    (hp : ps[i]? = some p) (hop : p.opening = .left)
    (hmin : ∀ (j : ℕ) (q : Panel), j < i → ps[j]? = some q → q.opening ≠ .left)
    (hnd : p.lock ≠ .double) :
    ((autoAssignLocks ps)[i]?).map Panel.lock = some .single := by
  have hr : (resetLocks ps)[i]? = some { p with lock := .dash } := by
    rw [getElem?_resetLocks, hp]
    simp [hnd]
  have hfl : findFirstIdx (fun p => decide (p.opening = .left)) (resetLocks ps)
      = some i := by
    refine findFirstIdx_eq_some hr (by simp [hop]) ?_
    intro j q hj hq
    rw [getElem?_resetLocks] at hq
    rcases Option.map_eq_some'.mp hq with ⟨q0, hq0, rfl⟩
    have hno : q0.opening ≠ .left := hmin j q0 hj hq0
    by_cases h0 : q0.lock = .double <;> simp [h0, hno]
  have hps1 : (setSingleLock (resetLocks ps) i)[i]?
      = some { p with lock := .single } := by
    rw [getElem?_setSingleLock_self hr]
    rfl
  unfold autoAssignLocks
  rcases hll :
    (findLastIdx (fun p => decide (p.opening = .right)) (resetLocks ps)) with _ | m
  · simp only [hfl, hll]
    rw [hps1]
    rfl
  · rcases findLastIdx_spec hll with ⟨q, hq, hpred⟩
    have hmi : m ≠ i := by
      intro he
      subst he
      rw [hr] at hq
      cases hq
      simp [hop] at hpred
    simp only [hfl, hll]
    rw [getElem?_setSingleLock_ne _ hmi, hps1]
    rfl

/-- The last right-opening panel, when not double-locked, ends the pass with a
single lock. -/
theorem autoAssignLocks_last_right_single {ps : List Panel} {i : ℕ} {p : Panel}
    (hp : ps[i]? = some p) (hop : p.opening = .right)
    (hmax : ∀ (j : ℕ) (q : Panel), i < j → ps[j]? = some q → q.opening ≠ .right)
    (hnd : p.lock ≠ .double) :
    ((autoAssignLocks ps)[i]?).map Panel.lock = some .single := by
  have hr : (resetLocks ps)[i]? = some { p with lock := .dash } := by
    rw [getElem?_resetLocks, hp]
    simp [hnd]
  have hll : findLastIdx (fun p => decide (p.opening = .right)) (resetLocks ps)
      = some i := by
    refine findLastIdx_eq_some hr (by simp [hop]) ?_
    intro j q hj hq
    rw [getElem?_resetLocks] at hq
    rcases Option.map_eq_some'.mp hq with ⟨q0, hq0, rfl⟩
    have hno : q0.opening ≠ .right := hmax j q0 hj hq0
    by_cases h0 : q0.lock = .double <;> simp [h0, hno]
  unfold autoAssignLocks
  rcases hfl :
    (findFirstIdx (fun p => decide (p.opening = .left)) (resetLocks ps)) with _ | k
  · simp only [hfl, hll]
    rw [getElem?_setSingleLock_self hr]
    rfl
  · rcases findFirstIdx_spec hfl with ⟨q, hq, hpred⟩
    have hki : k ≠ i := by
      intro he
      subst he
      rw [hr] at hq
      cases hq
      simp [hop] at hpred
    have hps1 : (setSingleLock (resetLocks ps) k)[i]?
        = some { p with lock := .dash } := by
      rw [getElem?_setSingleLock_ne _ hki, hr]
    simp only [hfl, hll]
    rw [getElem?_setSingleLock_self hps1]
    rfl

/-- C4: the lock auto-assignment pass never downgrades a double lock — every panel
locked `double` before the pass is still `double` after it — while the first panel
opening left and the last panel opening right receive a `single` lock when they are not
already `double`. -/
theorem claim_C4_lock_assignment (panels : List Panel) :
    (∀ (i : ℕ) (p : Panel), panels[i]? = some p → p.lock = .double →
      ((autoAssignLocks panels)[i]?).map Panel.lock = some .double) ∧
    (∀ (i : ℕ) (p : Panel), panels[i]? = some p → p.opening = .left →
      (∀ (j : ℕ) (q : Panel), j < i → panels[j]? = some q → q.opening ≠ .left) →
      p.lock ≠ .double →
      ((autoAssignLocks panels)[i]?).map Panel.lock = some .single) ∧
    (∀ (i : ℕ) (p : Panel), panels[i]? = some p → p.opening = .right →
      (∀ (j : ℕ) (q : Panel), i < j → panels[j]? = some q → q.opening ≠ .right) →
      p.lock ≠ .double →
      ((autoAssignLocks panels)[i]?).map Panel.lock = some .single) :=
  ⟨fun _ _ hp hd => autoAssignLocks_keeps_double hp hd,
    fun _ _ hp hop hmin hnd => autoAssignLocks_first_left_single hp hop hmin hnd,
    fun _ _ hp hop hmax hnd => autoAssignLocks_last_right_single hp hop hmax hnd⟩

/-- C4 witness: on a concrete two-panel list the double lock of the second panel
survives the pass and the first left-opening panel receives a single lock. -/
theorem claim_C4_lock_assignment_witness :
    ((autoAssignLocks [⟨"1", 500, OpeningDirection.left, LockSymbol.dash, 0, 0⟩,
        ⟨"2", 500, OpeningDirection.left, LockSymbol.double, 0, 0⟩])[1]?).map Panel.lock
      = some .double ∧
    ((autoAssignLocks [⟨"1", 500, OpeningDirection.left, LockSymbol.dash, 0, 0⟩,
        ⟨"2", 500, OpeningDirection.left, LockSymbol.double, 0, 0⟩])[0]?).map Panel.lock
      = some .single :=
  ⟨(claim_C4_lock_assignment
      [⟨"1", 500, OpeningDirection.left, LockSymbol.dash, 0, 0⟩,
       ⟨"2", 500, OpeningDirection.left, LockSymbol.double, 0, 0⟩]).1 1
      ⟨"2", 500, OpeningDirection.left, LockSymbol.double, 0, 0⟩
      (by decide) (by decide),
    (claim_C4_lock_assignment
      [⟨"1", 500, OpeningDirection.left, LockSymbol.dash, 0, 0⟩,
       ⟨"2", 500, OpeningDirection.left, LockSymbol.double, 0, 0⟩]).2.1 0
      ⟨"1", 500, OpeningDirection.left, LockSymbol.dash, 0, 0⟩
      (by decide) (by decide)
      (fun j q hj _ => absurd hj (Nat.not_lt_zero j)) (by decide)⟩


-- ─── Helper lemmas for panel length bounds ───

/-- The closest-size scan keeps its 100 mm lower bound through the fold. -/
theorem foldl_best_ge (w : ℚ) :
    ∀ (l : List ℚ) (b : ℚ × ℚ), 100 ≤ b.1 → (∀ s ∈ l, (100 : ℚ) ≤ s) →
      100 ≤ (l.foldl (fun b s => if |w - s| < b.2 then (s, |w - s|) else b) b).1 := by
  intro l
  induction l with
  | nil => intro b hb _; exact hb
  | cons s t ih =>
    intro b hb hl
    rw [List.foldl_cons]
    apply ih
    · by_cases hc : |w - s| < b.2
      · rw [if_pos hc]
        exact hl s (List.mem_cons_self s t)
      · rw [if_neg hc]
        exact hb
    · intro x hx
      exact hl x (List.mem_cons_of_mem s hx)

/-- Every snapped width is at least 100 mm. -/
theorem le_snapToStandardSize (w : ℚ) : 100 ≤ snapToStandardSize w := by
  unfold snapToStandardSize
  split
  next => exact le_max_left _ _
  next =>
    apply foldl_best_ge
    · norm_num [STANDARD_PANEL_SIZES]
    · intro s hs
      fin_cases hs <;> norm_num

/-- The reset pass keeps the list length. -/
theorem length_resetLocks (ps : List Panel) : (resetLocks ps).length = ps.length := by
  simp [resetLocks]

/-- A single conditional lock assignment keeps the list length. -/
theorem length_setSingleLock (l : List Panel) (i : ℕ) :
    (setSingleLock l i).length = l.length := by
  unfold setSingleLock
  split
  next =>
    split
    · rfl
    · exact List.length_set ..
  next => rfl

/-- The lock auto-assignment pass keeps the list length. -/
theorem length_autoAssignLocks (ps : List Panel) :
    (autoAssignLocks ps).length = ps.length := by
  unfold autoAssignLocks
  rcases hfl :
    (findFirstIdx (fun p => decide (p.opening = .left)) (resetLocks ps)) with _ | k <;>
  rcases hll :
    (findLastIdx (fun p => decide (p.opening = .right)) (resetLocks ps)) with _ | m <;>
  simp only [hfl, hll, length_setSingleLock, length_resetLocks]

/-- The reset pass keeps every panel length. -/
theorem map_length_resetLocks (ps : List Panel) :
    (resetLocks ps).map Panel.length = ps.map Panel.length := by
  unfold resetLocks
  rw [List.map_map]
  congr 1
  funext p
  by_cases h : p.lock = .double <;> simp [h]

/-- A single conditional lock assignment keeps every panel length. -/
theorem map_length_setSingleLock (l : List Panel) (i : ℕ) :
    (setSingleLock l i).map Panel.length = l.map Panel.length := by
  unfold setSingleLock
  split
  next p hp =>
    split
    · rfl
    · have hi : i < l.length := (List.getElem?_eq_some.mp hp).1
      rw [List.map_set]
      apply List.ext_getElem?
      intro j
      by_cases hji : j = i
      · subst hji
        rw [List.getElem?_set_eq_of_lt _ (by simpa using hi), List.getElem?_map, hp]
        rfl
      · rw [List.getElem?_set_ne (fun he => hji he.symm)]
  next => rfl

/-- The lock auto-assignment pass keeps every panel length. -/
theorem map_length_autoAssignLocks (ps : List Panel) :
    (autoAssignLocks ps).map Panel.length = ps.map Panel.length := by
  unfold autoAssignLocks
  rcases hfl :
    (findFirstIdx (fun p => decide (p.opening = .left)) (resetLocks ps)) with _ | k <;>
  rcases hll :
    (findLastIdx (fun p => decide (p.opening = .right)) (resetLocks ps)) with _ | m <;>
  simp only [hfl, hll, map_length_setSingleLock, map_length_resetLocks]

/-- `buildPanels` produces exactly `total` panels. -/
theorem length_buildPanels (total : ℕ) (ls ss : ℚ) (nl ns : ℕ) (lo ro : ℚ) :
    (buildPanels total ls ss nl ns lo ro).length = total := by
  simp only [buildPanels]
  rw [length_autoAssignLocks]
  simp

/-- The panel lengths built by `buildPanels`, position by position. -/
theorem map_length_buildPanels (total : ℕ) (ls ss : ℚ) (nl ns : ℕ) (lo ro : ℚ) :
    (buildPanels total ls ss nl ns lo ro).map Panel.length =
      (List.range total).map
        (fun i => max MIN_PANEL_WIDTH (if ns ≤ i then ls else ss)) := by
  simp only [buildPanels]
  rw [map_length_autoAssignLocks, List.map_map]
  rfl

/-- Every panel from `buildPanels` is at least 100 mm and, when at least one panel is
requested, the lengths sum positively. -/
theorem buildPanels_bounds (total : ℕ) (ls ss : ℚ) (nl ns : ℕ) (lo ro : ℚ)
    (htotal : 1 ≤ total) :
    (∀ p ∈ buildPanels total ls ss nl ns lo ro, 100 ≤ p.length) ∧
    0 < ((buildPanels total ls ss nl ns lo ro).map Panel.length).sum := by
  have hmem : ∀ p ∈ buildPanels total ls ss nl ns lo ro, 100 ≤ p.length := by
    intro p hp
    have hx : p.length ∈ (buildPanels total ls ss nl ns lo ro).map Panel.length :=
      List.mem_map_of_mem _ hp
    rw [map_length_buildPanels] at hx
    rcases List.mem_map.mp hx with ⟨i, _, hxe⟩
    rw [← hxe]
    calc (100 : ℚ) ≤ MIN_PANEL_WIDTH := by norm_num [MIN_PANEL_WIDTH]
      _ ≤ max MIN_PANEL_WIDTH _ := le_max_left _ _
  refine ⟨hmem, ?_⟩
  apply List.sum_pos
  · intro x hx
    rcases List.mem_map.mp hx with ⟨p, hp, rfl⟩
    have := hmem p hp
    linarith
  · intro hnil
    have hlen : ((buildPanels total ls ss nl ns lo ro).map Panel.length).length = total := by
      rw [List.length_map, length_buildPanels]
    rw [hnil] at hlen
    simp at hlen
    omega


/-- C7: for every input, every panel returned by `autoGeneratePanelsForEdge` is at
least 100 mm long and the panel lengths sum to a strictly positive total. -/
theorem claim_C7_panel_bounds (ops : MathOps) (edgeLength startAngle endAngle : ℚ)
    (sw ew : Bool) :
    (∀ p ∈ autoGeneratePanelsForEdge ops edgeLength startAngle endAngle sw ew,
      100 ≤ p.length) ∧
    0 < ((autoGeneratePanelsForEdge ops edgeLength startAngle endAngle sw ew).map
        Panel.length).sum := by
  unfold autoGeneratePanelsForEdge
  dsimp only
  split
  next =>
    constructor
    · intro p hp
      rw [List.mem_singleton] at hp
      subst hp
      exact le_max_left _ _
    · simp only [List.map_cons, List.map_nil, List.sum_cons, List.sum_nil, add_zero]
      calc (0 : ℚ) < 100 := by norm_num
        _ ≤ max 100 _ := le_max_left _ _
  next =>
    split
    next =>
      constructor
      · intro p hp
        rw [List.mem_singleton] at hp
        subst hp
        exact le_snapToStandardSize _
      · simp only [List.map_cons, List.map_nil, List.sum_cons, List.sum_nil, add_zero]
        calc (0 : ℚ) < 100 := by norm_num
          _ ≤ snapToStandardSize _ := le_snapToStandardSize _
    next h1 =>
      have htotal : 1 ≤ (max 1
          ⌈(edgeLength - (calculateOffset ops startAngle sw).offset -
            (calculateOffset ops endAngle ew).offset) / MAX_PANEL_WIDTH⌉).toNat := by
        have h := le_max_left (1 : ℤ)
          ⌈(edgeLength - (calculateOffset ops startAngle sw).offset -
            (calculateOffset ops endAngle ew).offset) / MAX_PANEL_WIDTH⌉
        omega
      split
      next => exact buildPanels_bounds _ _ _ _ _ _ _ htotal
      next =>
        split
        next => exact buildPanels_bounds _ _ _ _ _ _ _ htotal
        next => exact buildPanels_bounds _ _ _ _ _ _ _ htotal

/-- C7 witness: at edgeLength 100 with zero angles the single returned panel is exactly
100 mm and the length sum is positive. -/
theorem claim_C7_panel_bounds_witness :
    0 < ((autoGeneratePanelsForEdge trivialOps 100 0 0 false false).map
        Panel.length).sum ∧
    100 ≤ (Panel.mk "1" 100 .right .dash 46.5 46.5).length :=
  ⟨(claim_C7_panel_bounds trivialOps 100 0 0 false false).2,
    (claim_C7_panel_bounds trivialOps 100 0 0 false false).1
      ⟨"1", 100, .right, .dash, 46.5, 46.5⟩ (by decide)⟩

end OffsetChain
